import Mathlib

/-!
Verification of the quicktype custom-C#-extension example: a shallow
embedding of the type-attribute kinds (`GameObjectTypeAttributeKind`,
`DefaultValueTypeAttributeKind`), the two attribute producers
(`gameObjectAttributeProducer`, `propertyDefaultsAttributeProducer`), and the
two render hooks (`GameCSharpRenderer.superclassForType`,
`GameCSharpRenderer.propertyDefinition`) from the final revision of the
example, together with proofs of the specification's claims about them.

JavaScript runtime values are embedded as `JsVal`: a JSON-like universe with
a distinguished `undefined` value (reads of absent object properties yield it),
and with a reference-identity tag on objects and arrays so that the
JavaScript strict-equality operator `===` (value equality on primitives,
reference identity on objects and arrays) is expressible.
-/

/-- JavaScript runtime value as it occurs in the example: the members of
JSON plus `undefined`.  Objects and arrays carry a `Nat` reference-identity
tag modelling JavaScript object identity, which `===` compares; structural
(deep) equality ignores the tag.  Numbers are modelled as integers, which
covers every numeric literal the example and its spec exercise. -/
inductive JsVal where
  | undefined : JsVal
  | null : JsVal
  | bool : Bool → JsVal
  | num : Int → JsVal
  | str : String → JsVal
  | obj : Nat → List (String × JsVal) → JsVal
  | arr : Nat → List JsVal → JsVal

/-- The JavaScript `typeof` operator, restricted to `JsVal` (note
`typeof null` is the string "object" in JavaScript). -/
def jsTypeof : JsVal → String
  | .undefined => "undefined"
  | .null => "object"
  | .bool _ => "boolean"
  | .num _ => "number"
  | .str _ => "string"
  | .obj _ _ => "object"
  | .arr _ _ => "object"

/-- JavaScript strict equality `===` on `JsVal`: value equality on
primitives, reference identity (the tag) on objects and arrays, and `false`
across different runtime types. -/
def jsStrictEq : JsVal → JsVal → Bool
  | .undefined, .undefined => true
  | .null, .null => true
  | .bool a, .bool b => a == b
  | .num a, .num b => a == b
  | .str a, .str b => a == b
  | .obj i _, .obj j _ => i == j
  | .arr i _, .arr j _ => i == j
  | _, _ => false

mutual
/-- Structural (deep) equality on `JsVal`, ignoring the reference-identity
tags: the "deep equality" notion the specification speaks about for default
values.  Object fields are compared in order, which is the strictest
structural reading; any weaker reading is implied by it. -/
def jsDeepEq : JsVal → JsVal → Bool
  | .undefined, .undefined => true
  | .null, .null => true
  | .bool a, .bool b => a == b
  | .num a, .num b => a == b
  | .str a, .str b => a == b
  | .obj _ fs, .obj _ gs => jsDeepEqFields fs gs
  | .arr _ es, .arr _ ds => jsDeepEqElems es ds
  | _, _ => false

/-- Deep equality on object field lists. -/
def jsDeepEqFields : List (String × JsVal) → List (String × JsVal) → Bool
  | [], [] => true
  | (k, v) :: fs, (l, w) :: gs => k == l && jsDeepEq v w && jsDeepEqFields fs gs
  | _, _ => false

/-- Deep equality on array element lists. -/
def jsDeepEqElems : List JsVal → List JsVal → Bool
  | [], [] => true
  | v :: es, w :: ds => jsDeepEq v w && jsDeepEqElems es ds
  | _, _ => false
end

/-- JavaScript property read `v.k`: the field's value when `v` is an object
that has the field, `undefined` otherwise (absent properties read as
`undefined`; the example only ever reads properties of values already
checked to be of `typeof` "object"). -/
def jsGet (v : JsVal) (key : String) : JsVal :=
  match v with
  | .obj _ fields =>
    match fields.find? (fun p => p.1 == key) with
    | some p => p.2
    | none => .undefined
  | _ => .undefined

/-- Strict equality against `undefined` holds exactly for `undefined`. -/
theorem jsStrictEq_undef_iff (v : JsVal) : jsStrictEq v .undefined = true ↔ v = .undefined := by
  cases v <;> simp [jsStrictEq]

/-- The boolean game-object marker kind's `combine` (source:
`GameObjectTypeAttributeKind.combine`): `attrs.some(x => x)`, logical OR over
the contributed values. -/
def GameObjectTypeAttributeKind.combine (attrs : List Bool) : Bool :=
  attrs.any (fun x => x)

/-- The marker kind's `makeInferred` (source:
`GameObjectTypeAttributeKind.makeInferred`): always returns `undefined`,
i.e. the attribute is dropped when a carrying node merges with a
non-carrying one. -/
def GameObjectTypeAttributeKind.makeInferred (_ : Bool) : Option Bool :=
  none

/-- The default-value kind's `combine` (source:
`DefaultValueTypeAttributeKind.combine`): takes `attrs[0]` and walks the
rest with the JavaScript strict-inequality test `a !== attrs[i]`, throwing
`Error("Inconsistent default values")` on the first mismatch, else returning
the first value.  On the empty list `attrs[0]` reads as `undefined`, the
loop body never runs, and `undefined` is returned. -/
def DefaultValueTypeAttributeKind.combine (attrs : List JsVal) : Except String JsVal :=
  match attrs with
  | [] => .ok .undefined
  | a :: rest =>
    if rest.all (fun x => jsStrictEq a x) then .ok a
    else .error "Inconsistent default values"

/-- The default-value kind's `makeInferred` (source:
`DefaultValueTypeAttributeKind.makeInferred`): always returns `undefined`. -/
def DefaultValueTypeAttributeKind.makeInferred (_ : JsVal) : Option JsVal :=
  none

/-- The game-object attribute producer (source:
`gameObjectAttributeProducer`).  Arguments: the schema fragment, its
canonical reference (rendered to a string as it is interpolated into the
error message), and the set of JSON-Schema type tags the fragment was
classified under (modelled as a list).  Result: `Except` for the thrown
error; `ok none` means no contribution, `ok (some b)` a contribution `b`
for the marker kind. -/
def gameObjectAttributeProducer (schema : JsVal) (canonicalRef : String)
    (types : List String) : Except String (Option Bool) :=
  if jsTypeof schema ≠ "object" then .ok none
  else if "object" ∉ types then .ok none
  else
    let g := jsGet schema "gameObject"
    if jsStrictEq g .undefined then .ok (some false)
    else
      match g with
      | .bool b => .ok (some b)
      | _ => .error ("gameObject is not a boolean in " ++ canonicalRef)

/-- The property-defaults attribute producer (source:
`propertyDefaultsAttributeProducer`).  The source's second guard is
`typeof schema.default === undefined`: it compares the STRING returned by
`typeof` against the VALUE `undefined` with strict equality, which is false
for every schema, so the guard never fires; the embedding reproduces that
comparison literally.  `some v` is a contribution of `v` for the
default-value kind, `none` is no contribution. -/
def propertyDefaultsAttributeProducer (schema : JsVal) : Option JsVal :=
  if jsTypeof schema ≠ "object" then none
  else if jsStrictEq (.str (jsTypeof (jsGet schema "default"))) .undefined then none
  else some (jsGet schema "default")

/-- A type-graph node as the render hooks see it: whether it is a class
node (`instanceof ClassType`), and the node's attribute set restricted to
the two kinds of the example — `none` when the kind was never attached,
`some v` when it carries value `v`. -/
structure TypeNode where
  isClass : Bool
  gameObjectAttr : Option Bool
  defaultAttr : Option JsVal

/-- Result of `tryGetInAttributes` as JavaScript sees it: the stored value
when the kind is present, `undefined` when absent (a stored `undefined` is
therefore indistinguishable from absence at this boundary). -/
def tryGetInAttributes (attr : Option JsVal) : JsVal :=
  attr.getD .undefined

/-- The forced-supertype render hook (source:
`GameCSharpRenderer.superclassForType`): `undefined` unless the node is a
class node; then `isGameObject ? "GameObject" : undefined` where
`isGameObject` is the marker attribute or `undefined` — so only a present
`true` marker (the sole truthy case) yields the supertype. -/
def GameCSharpRenderer.superclassForType (t : TypeNode) : Option String :=
  if !t.isClass then none
  else
    match t.gameObjectAttr with
    | some true => some "GameObject"
    | _ => none

/-- One hexadecimal digit. -/
def hexDigit (n : Nat) : String :=
  String.singleton (Nat.digitChar n)

/-- JSON string-character escaping as `JSON.stringify` performs it. -/
def jsonEscapeChar (c : Char) : String :=
  if c = '"' then "\\\""
  else if c = '\\' then "\\\\"
  else if c = '\n' then "\\n"
  else if c = '\r' then "\\r"
  else if c = '\t' then "\\t"
  else if c = '\x08' then "\\b"
  else if c = '\x0c' then "\\f"
  else if c.toNat < 32 then "\\u00" ++ hexDigit (c.toNat / 16) ++ hexDigit (c.toNat % 16)
  else String.singleton c

/-- A JSON-quoted string, as `JSON.stringify` renders string values. -/
def jsonQuote (s : String) : String :=
  "\"" ++ String.join (s.toList.map jsonEscapeChar) ++ "\""

mutual
/-- The `JSON.stringify` serialization of a `JsVal`.  Object fields whose
value is `undefined` are skipped and `undefined` array elements render as
`null`, as in JavaScript; `JSON.stringify(undefined)` itself has no string
result in JavaScript and that case is unreachable in the example (the hook
guards on `v === undefined` first), so it is mapped to the placeholder
"undefined". -/
def jsonStringify : JsVal → String
  | .undefined => "undefined"
  | .null => "null"
  | .bool b => if b then "true" else "false"
  | .num n => toString n
  | .str s => jsonQuote s
  | .obj _ fields => "\x7b" ++ jsonStringifyFields fields ++ "\x7d"
  | .arr _ elems => "[" ++ jsonStringifyElems elems ++ "]"

/-- Serialize an object's fields, comma-separated, skipping
`undefined`-valued ones. -/
def jsonStringifyFields : List (String × JsVal) → String
  | [] => ""
  | (k, v) :: rest =>
    match v with
    | .undefined => jsonStringifyFields rest
    | v =>
      jsonQuote k ++ ":" ++ jsonStringify v ++
        (if rest.all (fun p => jsStrictEq p.2 .undefined) then "" else ",") ++
        jsonStringifyFields rest

/-- Serialize an array's elements, comma-separated, rendering `undefined`
elements as `null`. -/
def jsonStringifyElems : List JsVal → String
  | [] => ""
  | v :: rest =>
    (match v with
      | .undefined => "null"
      | v => jsonStringify v) ++
      (if rest.isEmpty then "" else ",") ++ jsonStringifyElems rest
end

/-- The forced-initializer render hook (source:
`GameCSharpRenderer.propertyDefinition`): computes the base renderer's
declaration first (passed in here as the list of source pieces
`originalDefinition`), looks up the default-value attribute on the
property's type, returns the original unchanged when the looked-up value is
`undefined`, and otherwise returns
`[originalDefinition, " = ", JSON.stringify(v), ";"]`, modelled as the flat
list of source pieces. -/
def GameCSharpRenderer.propertyDefinition (originalDefinition : List String)
    (defaultAttr : Option JsVal) : List String :=
  let v := tryGetInAttributes defaultAttr
  if jsStrictEq v .undefined then originalDefinition
  else originalDefinition ++ [" = ", jsonStringify v, ";"]

/-- Modelled from the spec: the type-graph engine's combine-on-merge hook is
not part of this example (it lives in the external engine the example plugs
into); per the interface contract, when two nodes are unified the engine
computes the merged node's marker attribute from the two nodes' lookups,
calling the kind's `combine` when both carry it, its `makeInferred` when
exactly one does, and leaving it absent when neither does. -/
def mergeGameObjectAttr : Option Bool → Option Bool → Option Bool
  | some a, some b => some (GameObjectTypeAttributeKind.combine [a, b])
  | some a, none => GameObjectTypeAttributeKind.makeInferred a
  | none, some b => GameObjectTypeAttributeKind.makeInferred b
  | none, none => none

/-- A parsed schema document as the pipeline consumes it: the root object
fragment with its canonical reference, and the property fragments the
engine will visit (property name paired with its schema fragment). -/
structure SchemaDoc where
  root : JsVal
  rootRef : String
  properties : List (String × JsVal)

/-- Modelled from the spec: the surrounding pipeline (`main` hands the
document to the external quicktype engine, which runs the producers during
graph construction and then the renderer's hooks over the finished graph).
The embedding runs the example's two producers over the document's
fragments, attaches their contributions to the nodes, and renders one line
per declaration through the example's two hooks, failing on the first
producer error as the engine does. -/
def pipelineRun (doc : SchemaDoc) : Except String (List String) :=
  match gameObjectAttributeProducer doc.root doc.rootRef ["object"] with
  | .error e => .error e
  | .ok marker =>
    let rootNode : TypeNode := ⟨true, marker, propertyDefaultsAttributeProducer doc.root⟩
    let header :=
      match GameCSharpRenderer.superclassForType rootNode with
      | some s => "class Player : " ++ s
      | none => "class Player"
    let propLines := doc.properties.map (fun p =>
      String.join
        (GameCSharpRenderer.propertyDefinition ["public " ++ p.1]
          (propertyDefaultsAttributeProducer p.2)))
    .ok (header :: propLines)

/-- Two sequenced runs of the pipeline over the same unchanged document:
nothing in the example mutates the document or any state shared between
runs (the attribute kinds are immutable singletons), so the second run sees
exactly what the first one did. -/
def pipelineRunTwice (doc : SchemaDoc) : Except String (List String) × Except String (List String) :=
  (pipelineRun doc, pipelineRun doc)

/-- Claim C1, evaluation at the failing input: a structured schema fragment
with no "default" key.  The claim (and the source's own comment "Don't make
an attribute if there's no default property") requires no contribution
here, but the source's guard `typeof schema.default === undefined` compares
the string "undefined" against the value `undefined`, is therefore always
false, and the producer contributes the value `undefined` for the fragment
anyway. -/
theorem C1_no_default_key_still_contributes :
    propertyDefaultsAttributeProducer (JsVal.obj 0 []) = some JsVal.undefined := rfl

/-- Claim C2, counterexample: two default values that are deeply equal (two
objects both reading as the JSON text with field "a" equal to 1) but are
distinct references are rejected by the default-value kind's `combine` with
the inconsistent-default error, although the claim requires `combine` to
return the first value whenever every contributing value is deeply equal to
the first: the source compares with `!==`, which is reference identity on
objects, not deep equality. -/
theorem C2_deep_equal_defaults_rejected :
    jsDeepEq (JsVal.obj 0 [("a", JsVal.num 1)]) (JsVal.obj 1 [("a", JsVal.num 1)]) = true ∧
    DefaultValueTypeAttributeKind.combine
        [JsVal.obj 0 [("a", JsVal.num 1)], JsVal.obj 1 [("a", JsVal.num 1)]] =
      .error "Inconsistent default values" :=
  ⟨rfl, rfl⟩

/-- Claim C2 (amended): for every non-empty sequence of contributing
values, the default-value kind's `combine` returns the first value when
every contributing value is strictly equal (JavaScript `===`: value
equality on primitives, reference identity on objects and arrays) to the
first, and raises the inconsistent-default hard error otherwise; in
particular `combine` on two values both equal to 5 yields 5, and `combine`
on the values 5 and 7 fails. -/
theorem C2_combine_requires_strict_equality (a : JsVal) (rest : List JsVal) :
    (rest.all (fun x => jsStrictEq a x) = true →
      DefaultValueTypeAttributeKind.combine (a :: rest) = .ok a) ∧
    (rest.all (fun x => jsStrictEq a x) = false →
      DefaultValueTypeAttributeKind.combine (a :: rest) =
        .error "Inconsistent default values") ∧
    DefaultValueTypeAttributeKind.combine [JsVal.num 5, JsVal.num 5] = .ok (JsVal.num 5) ∧
    DefaultValueTypeAttributeKind.combine [JsVal.num 5, JsVal.num 7] =
      .error "Inconsistent default values" := by
  refine ⟨fun h => ?_, fun h => ?_, rfl, rfl⟩ <;>
    simp [DefaultValueTypeAttributeKind.combine, h]

/-- Claim C2, witness: the amended theorem applied at the concrete inputs 5,5
and 5,7. -/
theorem C2_combine_requires_strict_equality_witness :
    DefaultValueTypeAttributeKind.combine [JsVal.num 5, JsVal.num 5] = .ok (JsVal.num 5) ∧
    DefaultValueTypeAttributeKind.combine [JsVal.num 5, JsVal.num 7] =
      .error "Inconsistent default values" :=
  ⟨(C2_combine_requires_strict_equality (JsVal.num 5) [JsVal.num 5]).1 rfl,
   (C2_combine_requires_strict_equality (JsVal.num 5) [JsVal.num 7]).2.1 rfl⟩

/-- Claim C3: for every structured, object-tagged schema fragment, the
game-object producer contributes `false` when the "gameObject" key is
absent, contributes the key's value when it is present and boolean, and
fails with an error whose message includes the fragment's canonical
reference when the key is present and not a boolean. -/
theorem C3_gameObject_producer_object_cases (id : Nat) (fields : List (String × JsVal))
    (ref : String) (types : List String) (hobj : "object" ∈ types) :
    (jsGet (JsVal.obj id fields) "gameObject" = .undefined →
      gameObjectAttributeProducer (JsVal.obj id fields) ref types = .ok (some false)) ∧
    (∀ b, jsGet (JsVal.obj id fields) "gameObject" = .bool b →
      gameObjectAttributeProducer (JsVal.obj id fields) ref types = .ok (some b)) ∧
    (∀ v, jsGet (JsVal.obj id fields) "gameObject" = v → v ≠ .undefined →
      (∀ b, v ≠ .bool b) →
      gameObjectAttributeProducer (JsVal.obj id fields) ref types =
          .error ("gameObject is not a boolean in " ++ ref) ∧
        ∃ pre post, "gameObject is not a boolean in " ++ ref = pre ++ ref ++ post) := by
  refine ⟨fun h => ?_, fun b h => ?_, fun v hv hne hnb => ⟨?_, "gameObject is not a boolean in ", "", by simp⟩⟩
  · simp [gameObjectAttributeProducer, jsTypeof, hobj, h, jsStrictEq]
  · simp [gameObjectAttributeProducer, jsTypeof, hobj, h, jsStrictEq]
  · have hf : jsStrictEq v .undefined = false := by
      cases hsq : jsStrictEq v .undefined
      · rfl
      · exact absurd ((jsStrictEq_undef_iff v).mp hsq) hne
    simp only [gameObjectAttributeProducer, jsTypeof, hobj, hv, hf]
    cases v with
    | undefined => exact absurd rfl hne
    | bool b => exact absurd rfl (hnb b)
    | null => simp
    | num n => simp
    | str s => simp
    | obj i fs => simp
    | arr i es => simp

/-- Claim C3, witness: the theorem applied to the fragment whose
"gameObject" key holds the string "yes". -/
theorem C3_gameObject_producer_object_cases_witness :
    gameObjectAttributeProducer (JsVal.obj 0 [("gameObject", JsVal.str "yes")]) "ref0"
        ["object"] =
      .error ("gameObject is not a boolean in " ++ "ref0") :=
  ((C3_gameObject_producer_object_cases 0 [("gameObject", JsVal.str "yes")] "ref0" ["object"]
      (by simp)).2.2 (JsVal.str "yes") rfl (fun h => JsVal.noConfusion h)
      (fun b h => JsVal.noConfusion h)).1

/-- Claim C4: the marker kind's `combine` is logical OR — on a pair it is
`b1 || b2`, on any sequence it is true exactly when some element is true,
it is a homomorphism for append (associativity over sequences), and it is
invariant under permutation (commutativity over sequences). -/
theorem C4_marker_combine_is_or :
    (∀ b1 b2, GameObjectTypeAttributeKind.combine [b1, b2] = (b1 || b2)) ∧
    (∀ l : List Bool, (GameObjectTypeAttributeKind.combine l = true ↔ ∃ b ∈ l, b = true)) ∧
    (∀ l1 l2 : List Bool,
      GameObjectTypeAttributeKind.combine (l1 ++ l2) =
        (GameObjectTypeAttributeKind.combine l1 || GameObjectTypeAttributeKind.combine l2)) ∧
    (∀ l1 l2 : List Bool, l1.Perm l2 →
      GameObjectTypeAttributeKind.combine l1 = GameObjectTypeAttributeKind.combine l2) := by
  refine ⟨by decide, fun l => ?_, fun l1 l2 => ?_, fun l1 l2 h => ?_⟩
  · simp [GameObjectTypeAttributeKind.combine, List.any_eq_true]
  · simp [GameObjectTypeAttributeKind.combine, List.any_append]
  · simp only [GameObjectTypeAttributeKind.combine]
    rw [Bool.eq_iff_iff]
    simp only [List.any_eq_true]
    exact ⟨fun ⟨b, hb, hbt⟩ => ⟨b, h.mem_iff.mp hb, hbt⟩,
      fun ⟨b, hb, hbt⟩ => ⟨b, h.mem_iff.mpr hb, hbt⟩⟩

/-- Claim C4, witness: the theorem applied on the pair (false, true) and on
the concrete permutation swapping a two-element sequence. -/
theorem C4_marker_combine_is_or_witness :
    GameObjectTypeAttributeKind.combine [false, true] = (false || true) ∧
    GameObjectTypeAttributeKind.combine [true, false] =
      GameObjectTypeAttributeKind.combine [false, true] :=
  ⟨C4_marker_combine_is_or.1 false true,
   C4_marker_combine_is_or.2.2.2 [true, false] [false, true] (by decide)⟩

/-- Claim C5: the marker kind's `makeInferred` returns absent for every
boolean value; consequently the engine's combine-on-merge hook (modelled
from the spec) yields an absent marker whenever a node carrying the marker
merges with a node that does not carry it, on either side. -/
theorem C5_makeInferred_drops_marker :
    (∀ b, GameObjectTypeAttributeKind.makeInferred b = none) ∧
    (∀ b, mergeGameObjectAttr (some b) none = none) ∧
    (∀ b, mergeGameObjectAttr none (some b) = none) :=
  ⟨fun _ => rfl, fun _ => rfl, fun _ => rfl⟩

/-- Claim C6: for every class-shaped node, the forced-supertype hook
returns "GameObject" when the marker attribute is present and true, and
returns no override (absent) otherwise — in particular for nodes on which
the marker was never attached; the hook is a total function, so it cannot
throw. -/
theorem C6_superclass_hook (t : TypeNode) (hc : t.isClass = true) :
    (t.gameObjectAttr = some true →
      GameCSharpRenderer.superclassForType t = some "GameObject") ∧
    (t.gameObjectAttr ≠ some true →
      GameCSharpRenderer.superclassForType t = none) := by
  constructor
  · intro h
    simp [GameCSharpRenderer.superclassForType, hc, h]
  · intro h
    rcases hg : t.gameObjectAttr with _ | b
    · simp [GameCSharpRenderer.superclassForType, hc, hg]
    · cases b
      · simp [GameCSharpRenderer.superclassForType, hc, hg]
      · exact absurd hg h

/-- Claim C6, witness: the theorem applied to a marked class node and to a
class node that never had the marker attached. -/
theorem C6_superclass_hook_witness :
    GameCSharpRenderer.superclassForType ⟨true, some true, none⟩ = some "GameObject" ∧
    GameCSharpRenderer.superclassForType ⟨true, none, none⟩ = none :=
  ⟨(C6_superclass_hook ⟨true, some true, none⟩ rfl).1 rfl,
   (C6_superclass_hook ⟨true, none, none⟩ rfl).2 (fun h => Option.noConfusion h)⟩

/-- Claim C7, counterexample: the default-value attribute is present on the
property's type (it holds the stored value `undefined`, which the buggy
defaults producer attaches to every structured fragment that declares no
"default" key), yet the forced-initializer hook returns the base
declaration unmodified instead of appending an initializer: the hook keys
on the looked-up value being `undefined`, not on node-level presence of the
attribute. -/
theorem C7_present_undefined_not_appended :
    (some JsVal.undefined).isSome = true ∧
    GameCSharpRenderer.propertyDefinition ["public long Health"] (some JsVal.undefined) =
      ["public long Health"] :=
  ⟨rfl, rfl⟩

/-- Claim C7 (amended): the forced-initializer hook returns the base
declaration unmodified when the looked-up default value is `undefined`
(attribute absent, or present with stored value `undefined`), and when the
attribute is present with any other value returns the base declaration
with the initializer pieces " = ", the JSON serialization of the value, and
";" appended; in every case the base declaration is a prefix of the result
(the hook is purely additive and never suppresses or rewrites it). -/
theorem C7_initializer_hook (orig : List String) (attr : Option JsVal) :
    (tryGetInAttributes attr = .undefined →
      GameCSharpRenderer.propertyDefinition orig attr = orig) ∧
    (∀ v, attr = some v → v ≠ .undefined →
      GameCSharpRenderer.propertyDefinition orig attr =
        orig ++ [" = ", jsonStringify v, ";"]) ∧
    (∃ t, GameCSharpRenderer.propertyDefinition orig attr = orig ++ t) := by
  refine ⟨fun h => ?_, fun v hv hne => ?_, ?_⟩
  · simp [GameCSharpRenderer.propertyDefinition, h, jsStrictEq]
  · have hf : jsStrictEq v .undefined = false := by
      cases hsq : jsStrictEq v .undefined
      · rfl
      · exact absurd ((jsStrictEq_undef_iff v).mp hsq) hne
    simp [GameCSharpRenderer.propertyDefinition, tryGetInAttributes, hv, hf]
  · by_cases h : jsStrictEq (tryGetInAttributes attr) .undefined = true
    · exact ⟨[], by simp [GameCSharpRenderer.propertyDefinition, h]⟩
    · exact ⟨[" = ", jsonStringify (tryGetInAttributes attr), ";"],
        by simp [GameCSharpRenderer.propertyDefinition, h]⟩

/-- Claim C7, witness: the amended theorem applied to an absent attribute
and to an attribute holding the number 100. -/
theorem C7_initializer_hook_witness :
    GameCSharpRenderer.propertyDefinition ["public long Health"] none =
      ["public long Health"] ∧
    GameCSharpRenderer.propertyDefinition ["public long Health"] (some (JsVal.num 100)) =
      ["public long Health"] ++ [" = ", jsonStringify (JsVal.num 100), ";"] :=
  ⟨(C7_initializer_hook ["public long Health"] none).1 rfl,
   (C7_initializer_hook ["public long Health"] (some (JsVal.num 100))).2.1 (JsVal.num 100)
     rfl (fun h => JsVal.noConfusion h)⟩

/-- Claim C8: the game-object producer produces no contribution for every
schema fragment that is not object-shaped (its `typeof` is not "object" —
in particular every boolean fragment), and for every fragment whose
classified type-tag set does not include "object". -/
theorem C8_marker_producer_out_of_scope (schema : JsVal) (ref : String)
    (types : List String) :
    (jsTypeof schema ≠ "object" →
      gameObjectAttributeProducer schema ref types = .ok none) ∧
    ("object" ∉ types → gameObjectAttributeProducer schema ref types = .ok none) := by
  constructor
  · intro h
    simp [gameObjectAttributeProducer, h]
  · intro h
    by_cases ht : jsTypeof schema ≠ "object"
    · simp [gameObjectAttributeProducer, ht]
    · simp [gameObjectAttributeProducer, ht, h]

/-- Claim C8, witness: the theorem applied to a boolean schema fragment
(with the "object" tag) and to an object fragment classified only under the
"string" tag. -/
theorem C8_marker_producer_out_of_scope_witness :
    gameObjectAttributeProducer (JsVal.bool true) "r" ["object"] = .ok none ∧
    gameObjectAttributeProducer (JsVal.obj 0 []) "r" ["string"] = .ok none :=
  ⟨(C8_marker_producer_out_of_scope (JsVal.bool true) "r" ["object"]).1 (by decide),
   (C8_marker_producer_out_of_scope (JsVal.obj 0 []) "r" ["string"]).2 (by decide)⟩

/-- Claim C9: the pipeline is deterministic — for every schema document,
two sequenced runs of the (spec-modelled) pipeline over the unchanged
document produce identical output line sequences. -/
theorem C9_pipeline_two_runs_equal (doc : SchemaDoc) :
    (pipelineRunTwice doc).1 = (pipelineRunTwice doc).2 ∧
    pipelineRun doc = pipelineRun doc :=
  ⟨rfl, rfl⟩

/-- Claim C10: at the forced-supertype hook a marker stored as the explicit
value false is indistinguishable from an absent marker — for every node the
hook returns the same result for both, and for every class-shaped node that
result is no override. -/
theorem C10_false_marker_indistinguishable_from_absent (t : TypeNode) :
    GameCSharpRenderer.superclassForType ⟨t.isClass, some false, t.defaultAttr⟩ =
      GameCSharpRenderer.superclassForType ⟨t.isClass, none, t.defaultAttr⟩ ∧
    (t.isClass = true →
      GameCSharpRenderer.superclassForType ⟨t.isClass, some false, t.defaultAttr⟩ = none) := by
  constructor
  · cases t.isClass <;> simp [GameCSharpRenderer.superclassForType]
  · intro h
    simp [GameCSharpRenderer.superclassForType, h]

/-- Claim C10, witness: the theorem applied to a class node. -/
theorem C10_false_marker_indistinguishable_from_absent_witness :
    GameCSharpRenderer.superclassForType ⟨true, some false, none⟩ =
      GameCSharpRenderer.superclassForType ⟨true, none, none⟩ ∧
    GameCSharpRenderer.superclassForType ⟨true, some false, none⟩ = none :=
  ⟨(C10_false_marker_indistinguishable_from_absent ⟨true, none, none⟩).1,
   (C10_false_marker_indistinguishable_from_absent ⟨true, none, none⟩).2 rfl⟩
